import Mathlib

/-!
# Post-process demo (`demo_postprocess.cpp` / `demo_postprocess.hpp`)

Shallow embedding of

* the two GLSL fragment shaders (`mainProgram`, `postProcessProgram`),
* the host side upload of the post-process uniforms,
* `DemoPostProcess::Framebuffer::Generate` / `Resize` and the resize check and
  the two passes of `DemoPostProcess::UpdateAndRender`, over an explicit model
  of the part of the OpenGL context these functions touch.

The shaders are written over an arbitrary scalar type `α` that only carries the
operations GLSL uses (`+`, `-`, `*`, `/`, unary minus, decimal literals and the
implicit `int → float` conversion).  No law is assumed in the definitions.
Theorems that need no arithmetic law are stated for every such `α`; theorems
that rearrange arithmetic are stated for every field `α` (exact arithmetic, so
rounding of the GPU `float` type is outside of those statements).
-/

namespace IBL

/-! ## GLSL vectors -/

/-- GLSL `vec2`. -/
structure Vec2 (α : Type) where
  x : α
  y : α
deriving DecidableEq

/-- GLSL `vec3`; the colour names `.r .g .b` are GLSL aliases of `.x .y .z`. -/
structure Vec3 (α : Type) where
  x : α
  y : α
  z : α
deriving DecidableEq

/-- GLSL `vec4`; the colour names `.r .g .b .a` are GLSL aliases of `.x .y .z .w`. -/
structure Vec4 (α : Type) where
  x : α
  y : α
  z : α
  w : α
deriving DecidableEq

/-- GLSL `mat3`, stored by columns: `m[j]` is column `j`. -/
structure Mat3 (α : Type) where
  c0 : Vec3 α
  c1 : Vec3 α
  c2 : Vec3 α
deriving DecidableEq

section Ops

variable {α : Type}

/-- GLSL `vec2 + vec2`. -/
def Vec2.add [Add α] (a b : Vec2 α) : Vec2 α := ⟨a.x + b.x, a.y + b.y⟩

/-- GLSL `vec3 + vec3`. -/
def Vec3.add [Add α] (a b : Vec3 α) : Vec3 α := ⟨a.x + b.x, a.y + b.y, a.z + b.z⟩

/-- GLSL `vec3 * float`. -/
def Vec3.mulS [Mul α] (v : Vec3 α) (k : α) : Vec3 α := ⟨v.x * k, v.y * k, v.z * k⟩

/-- GLSL `vec3(float)`: the scalar in every component. -/
def Vec3.splat (k : α) : Vec3 α := ⟨k, k, k⟩

/-- GLSL `vec3(vec4)`: the first three components. -/
def Vec4.xyz (v : Vec4 α) : Vec3 α := ⟨v.x, v.y, v.z⟩

/-- GLSL `vec4(vec3, float)`. -/
def Vec4.ofVec3 (v : Vec3 α) (w : α) : Vec4 α := ⟨v.x, v.y, v.z, w⟩

/-- GLSL `vec4 * vec4` (componentwise). -/
def Vec4.mul [Mul α] (a b : Vec4 α) : Vec4 α := ⟨a.x * b.x, a.y * b.y, a.z * b.z, a.w * b.w⟩

/-- GLSL `vec4 * float`. -/
def Vec4.mulS [Mul α] (v : Vec4 α) (k : α) : Vec4 α := ⟨v.x * k, v.y * k, v.z * k, v.w * k⟩

/-- GLSL `float - vec4`: the scalar minus every component. -/
def Vec4.rsub [Sub α] (k : α) (v : Vec4 α) : Vec4 α := ⟨k - v.x, k - v.y, k - v.z, k - v.w⟩

/-- GLSL `v[i]` on a `vec3` (indices outside `0..2` are never used by the code). -/
def Vec3.idx (v : Vec3 α) (i : Nat) : α :=
  match i with
  | 0 => v.x
  | 1 => v.y
  | _ => v.z

/-- GLSL `m[j]` on a `mat3`: column `j`. -/
def Mat3.col (m : Mat3 α) (j : Nat) : Vec3 α :=
  match j with
  | 0 => m.c0
  | 1 => m.c1
  | _ => m.c2

end Ops

/-- GLSL `sampler2D` together with the bound texture: `texture(s, uv)`. -/
abbrev Sampler2D (α : Type) := Vec2 α → Vec4 α

/-! ## The post-process fragment shader (`demo_postprocess.cpp`, lines 116-190) -/

/-- The uniforms of the post-process fragment shader (the unused `colorTransform` is left out). -/
structure PostUniforms (α : Type) where
  inversed : Int
  inverseCoef : α
  grayScaled : Int
  grayScaleCoef : α
  kernelEffect : Int
  kernelIntensity : α
  kernel3 : Mat3 α

section PostProcessShader

variable {α : Type}

/-- Shader constant `const float offset = 1.0 / 300.0;`. -/
def offset [Div α] [OfScientific α] : α := (1.0 : α) / (300.0 : α)

/-- Local array `vec2 offsets[9]` of the kernel branch. -/
def offsets [Div α] [Neg α] [OfScientific α] : List (Vec2 α) :=
  [ ⟨-offset, offset⟩,   -- top-left
    ⟨0.0, offset⟩,       -- top-center
    ⟨offset, offset⟩,    -- top-right
    ⟨-offset, 0.0⟩,      -- center-left
    ⟨0.0, 0.0⟩,          -- center-center
    ⟨offset, 0.0⟩,       -- center-right
    ⟨-offset, -offset⟩,  -- bottom-left
    ⟨0.0, -offset⟩,      -- bottom-center
    ⟨offset, -offset⟩ ]  -- bottom-right

/-- The `if (inversed == 1)` block: `fragColor *= vec4(vec3(inversed - texture(..)), 1.0) * inverseCoef`. -/
def invertStep [Mul α] [Sub α] [IntCast α] [OfScientific α]
    (colorTexture : Sampler2D α) (u : PostUniforms α) (vUV : Vec2 α) (fragColor : Vec4 α) :
    Vec4 α :=
  if u.inversed = 1 then
    fragColor.mul
      ((Vec4.ofVec3 (Vec4.rsub (u.inversed : α) (colorTexture vUV)).xyz 1.0).mulS u.inverseCoef)
  else fragColor

/-- The `if (grayScaled == 1)` block. -/
def grayStep [Mul α] [Add α] [OfScientific α]
    (colorTexture : Sampler2D α) (u : PostUniforms α) (vUV : Vec2 α) (fragColor : Vec4 α) :
    Vec4 α :=
  if u.grayScaled = 1 then
    let fragColorTemp := colorTexture vUV
    let average := 0.2126 * fragColorTemp.x + 0.7152 * fragColorTemp.y + 0.0722 * fragColorTemp.z
    fragColor.mul ((Vec4.mk average average average 1.0).mulS u.grayScaleCoef)
  else fragColor

/-- Local array `vec3 sampleTex[9]`, filled by the first loop of the kernel branch. -/
def sampleTex [Add α] [Div α] [Neg α] [OfScientific α]
    (colorTexture : Sampler2D α) (vUV : Vec2 α) : List (Vec3 α) :=
  (List.range 9).map fun i => (colorTexture (vUV.add (offsets.getD i ⟨0.0, 0.0⟩))).xyz

/-- The double loop `for j < 3, for i < 3: col += sampleTex[i + j * 3] * kernel3[j][i]`,
starting from `vec3 col = vec3(0.0)`. -/
def kernelCol [Add α] [Mul α] [OfScientific α] (samples : List (Vec3 α)) (kernel3 : Mat3 α) :
    Vec3 α :=
  (List.range 3).foldl
    (fun col j =>
      (List.range 3).foldl
        (fun col i =>
          col.add (((samples.getD (i + j * 3) (Vec3.splat 0.0))).mulS ((kernel3.col j).idx i)))
        col)
    (Vec3.splat 0.0)

/-- The `if (kernelEffect == 1)` block (the unused locals `kernel` and `kernel2` are left out). -/
def kernelStep [Add α] [Mul α] [Div α] [Neg α] [OfScientific α]
    (colorTexture : Sampler2D α) (u : PostUniforms α) (vUV : Vec2 α) (fragColor : Vec4 α) :
    Vec4 α :=
  if u.kernelEffect = 1 then
    let col := kernelCol (sampleTex colorTexture vUV) u.kernel3
    fragColor.mul ((Vec4.ofVec3 col 1.0).mulS u.kernelIntensity)
  else fragColor

/-- The post-process fragment shader `main`: the value written to `fragColor`. -/
def postProcessMain [Add α] [Sub α] [Mul α] [Div α] [Neg α] [IntCast α] [OfScientific α]
    (colorTexture : Sampler2D α) (u : PostUniforms α) (vUV : Vec2 α) : Vec4 α :=
  let fragColor := colorTexture vUV
  let fragColor := invertStep colorTexture u vUV fragColor
  let fragColor := grayStep colorTexture u vUV fragColor
  let fragColor := kernelStep colorTexture u vUV fragColor
  fragColor

end PostProcessShader

/-! ## Host side: the post-process parameters and their upload -/

/-- The post-process parameters of `DemoPostProcess` (`demo_postprocess.hpp`, lines 50-62);
each `float[3]` kernel line is a `Vec3` with `x y z` for the indices `0 1 2`. -/
structure Params (α : Type) where
  lightIntensity : α
  inversed : Bool
  inverseCoef : α
  grayScaled : Bool
  grayScaleCoef : α
  kernelEffect : Bool
  kernelCoef : α
  kernelIntensity : α
  kernelLine1 : Vec3 α
  kernelLine2 : Vec3 α
  kernelLine3 : Vec3 α

section Host

variable {α : Type}

/-- The member initialisers of `demo_postprocess.hpp`, lines 51-62. -/
def Params.default [OfNat α 0] [OfNat α 1] : Params α where
  lightIntensity := 0
  inversed := false
  inverseCoef := 1
  grayScaled := false
  grayScaleCoef := 1
  kernelEffect := false
  kernelCoef := 1
  kernelIntensity := 1
  kernelLine1 := ⟨0, 0, 0⟩
  kernelLine2 := ⟨0, 1, 0⟩
  kernelLine3 := ⟨0, 0, 0⟩

/-- C++ conversion `bool → GLint` done by the call `glUniform1i(loc, flag)`. -/
def boolToInt (b : Bool) : Int := if b then 1 else 0

/-- The host array `GLfloat kernel[9]` after the loop `kernel[i] *= kernelCoef`. -/
def hostKernel [Mul α] (p : Params α) : List α :=
  [ p.kernelLine1.x, p.kernelLine1.y, p.kernelLine1.z,
    p.kernelLine2.x, p.kernelLine2.y, p.kernelLine2.z,
    p.kernelLine3.x, p.kernelLine3.y, p.kernelLine3.z ].map fun k => k * p.kernelCoef

/-- OpenGL `glUniformMatrix3fv(loc, 1, transpose, value)`: with `transpose = GL_FALSE` the nine
floats are taken in column-major order, with `GL_TRUE` in row-major order. -/
def glUniformMatrix3fv [OfNat α 0] (transpose : Bool) (value : List α) : Mat3 α :=
  let v := fun i => value.getD i 0
  if transpose then
    ⟨⟨v 0, v 3, v 6⟩, ⟨v 1, v 4, v 7⟩, ⟨v 2, v 5, v 8⟩⟩
  else
    ⟨⟨v 0, v 1, v 2⟩, ⟨v 3, v 4, v 5⟩, ⟨v 6, v 7, v 8⟩⟩

/-- The block "Setup post process program uniforms" of `UpdateAndRender` (lines 352-371). -/
def postProcessUniforms [Mul α] [OfNat α 0] (p : Params α) : PostUniforms α where
  inversed := boolToInt p.inversed
  inverseCoef := p.inverseCoef
  grayScaled := boolToInt p.grayScaled
  grayScaleCoef := p.grayScaleCoef
  kernelEffect := boolToInt p.kernelEffect
  kernelIntensity := p.kernelIntensity
  kernel3 := glUniformMatrix3fv false (hostKernel p)

end Host

/-! ## The scene fragment shader (`demo_postprocess.cpp`, lines 81-97) -/

/-- The two colour outputs of the scene fragment shader. -/
structure SceneOut (α : Type) where
  baseColor : Vec4 α
  finalColor : Vec4 α

/-- The scene fragment shader `main`. -/
def sceneMain {α : Type} [Add α] [Mul α] [OfScientific α]
    (diffuseTexture specularTexture : Sampler2D α) (lightIntensity : α) (vUV : Vec2 α) :
    SceneOut α :=
  let diffuse := (diffuseTexture vUV).xyz
  let specular := (specularTexture vUV).xyz
  { baseColor := Vec4.ofVec3 (diffuse.add (specular.mulS lightIntensity)) 1.0
    finalColor := Vec4.ofVec3 (specular.mulS lightIntensity) 1.0 }

/-! ## The part of the OpenGL context used by the framebuffer code

Object names are handed out in increasing order starting at 1; name 0 is the reserved default
name.  A call that OpenGL rejects because of an invalid object name leaves the state as it is and
sets `error`.  Storage requests (`glTexImage2D`, `glRenderbufferStorage`) on a valid object are
taken to be granted for the requested size: the size limits of a particular backend are not part
of this model.  Texture filter and wrap parameters, `glDrawBuffers`, `glClear`, `glEnable` and the
vertex array binding have no effect on the tracked state and are left out. -/

/-- One recorded `glDrawArrays` call together with the state it was issued in. -/
structure Draw where
  framebuffer : Nat
  viewport : Int × Int × Int × Int
  program : Nat
  texture0 : Nat
  texture1 : Nat
  first : Int
  count : Int
deriving DecidableEq

/-- The tracked part of the OpenGL context. -/
structure GLState where
  textureNames : Nat
  renderbufferNames : Nat
  framebufferNames : Nat
  activeTexture : Nat
  textureBinding : Nat → Nat
  renderbufferBinding : Nat
  framebufferBinding : Nat
  texImage : Nat → Option (Int × Int)
  renderbufferStorage : Nat → Option (Int × Int)
  colorAttachment0 : Nat → Nat
  colorAttachment1 : Nat → Nat
  depthAttachment : Nat → Nat
  viewport : Int × Int × Int × Int
  program : Nat
  storageCalls : Nat
  draws : List Draw
  error : Bool

namespace GLState

/-- A context in which no object has been created yet. -/
def init : GLState where
  textureNames := 0
  renderbufferNames := 0
  framebufferNames := 0
  activeTexture := 0
  textureBinding := fun _ => 0
  renderbufferBinding := 0
  framebufferBinding := 0
  texImage := fun _ => none
  renderbufferStorage := fun _ => none
  colorAttachment0 := fun _ => 0
  colorAttachment1 := fun _ => 0
  depthAttachment := fun _ => 0
  viewport := (0, 0, 0, 0)
  program := 0
  storageCalls := 0
  draws := []
  error := false

/-- The name `n` was returned by `glGenTextures`. -/
def isTexture (g : GLState) (n : Nat) : Bool := decide (0 < n ∧ n ≤ g.textureNames)

/-- The name `n` was returned by `glGenRenderbuffers`. -/
def isRenderbuffer (g : GLState) (n : Nat) : Bool := decide (0 < n ∧ n ≤ g.renderbufferNames)

/-- The name `n` was returned by `glGenFramebuffers`. -/
def isFramebuffer (g : GLState) (n : Nat) : Bool := decide (0 < n ∧ n ≤ g.framebufferNames)

/-- OpenGL `glGenTextures(1, &name)`. -/
def glGenTextures (g : GLState) : Nat × GLState :=
  (g.textureNames + 1, { g with textureNames := g.textureNames + 1 })

/-- OpenGL `glGenRenderbuffers(1, &name)`. -/
def glGenRenderbuffers (g : GLState) : Nat × GLState :=
  (g.renderbufferNames + 1, { g with renderbufferNames := g.renderbufferNames + 1 })

/-- OpenGL `glGenFramebuffers(1, &name)`. -/
def glGenFramebuffers (g : GLState) : Nat × GLState :=
  (g.framebufferNames + 1, { g with framebufferNames := g.framebufferNames + 1 })

/-- OpenGL `glActiveTexture(GL_TEXTURE0 + unit)`. -/
def glActiveTexture (unit : Nat) (g : GLState) : GLState := { g with activeTexture := unit }

/-- OpenGL `glBindTexture(GL_TEXTURE_2D, n)` on the active texture unit. -/
def glBindTexture (n : Nat) (g : GLState) : GLState :=
  if n = 0 ∨ g.isTexture n then
    { g with textureBinding := fun u => if u = g.activeTexture then n else g.textureBinding u }
  else { g with error := true }

/-- OpenGL `glTexImage2D(GL_TEXTURE_2D, 0, GL_RGBA, width, height, 0, GL_RGBA, GL_UNSIGNED_BYTE,
nullptr)`: new level 0 storage for the texture bound to the active unit. -/
def glTexImage2D (width height : Int) (g : GLState) : GLState :=
  { g with
    texImage := fun n =>
      if n = g.textureBinding g.activeTexture then some (width, height) else g.texImage n
    storageCalls := g.storageCalls + 1 }

/-- OpenGL `glBindRenderbuffer(GL_RENDERBUFFER, n)`. -/
def glBindRenderbuffer (n : Nat) (g : GLState) : GLState :=
  if n = 0 ∨ g.isRenderbuffer n then { g with renderbufferBinding := n }
  else { g with error := true }

/-- OpenGL `glRenderbufferStorage(GL_RENDERBUFFER, GL_DEPTH_COMPONENT, width, height)`: new
storage for the bound renderbuffer; an error when the reserved name 0 is bound. -/
def glRenderbufferStorage (width height : Int) (g : GLState) : GLState :=
  if g.renderbufferBinding = 0 then
    { g with error := true, storageCalls := g.storageCalls + 1 }
  else
    { g with
      renderbufferStorage := fun n =>
        if n = g.renderbufferBinding then some (width, height) else g.renderbufferStorage n
      storageCalls := g.storageCalls + 1 }

/-- OpenGL `glBindFramebuffer(GL_FRAMEBUFFER, n)`. -/
def glBindFramebuffer (n : Nat) (g : GLState) : GLState :=
  if n = 0 ∨ g.isFramebuffer n then { g with framebufferBinding := n }
  else { g with error := true }

/-- OpenGL `glFramebufferTexture2D(GL_FRAMEBUFFER, GL_COLOR_ATTACHMENT0 + slot, GL_TEXTURE_2D,
texture, 0)` for `slot` 0 or 1, on the bound framebuffer. -/
def glFramebufferTexture2D (slot : Nat) (texture : Nat) (g : GLState) : GLState :=
  if texture = 0 ∨ g.isTexture texture then
    if slot = 0 then
      { g with
        colorAttachment0 := fun f =>
          if f = g.framebufferBinding then texture else g.colorAttachment0 f }
    else
      { g with
        colorAttachment1 := fun f =>
          if f = g.framebufferBinding then texture else g.colorAttachment1 f }
  else { g with error := true }

/-- OpenGL `glFramebufferRenderbuffer(GL_FRAMEBUFFER, GL_DEPTH_ATTACHMENT, GL_RENDERBUFFER, rb)`
on the bound framebuffer. -/
def glFramebufferRenderbuffer (rb : Nat) (g : GLState) : GLState :=
  if rb = 0 ∨ g.isRenderbuffer rb then
    { g with
      depthAttachment := fun f => if f = g.framebufferBinding then rb else g.depthAttachment f }
  else { g with error := true }

/-- An image with storage of non-zero size (what framebuffer completeness asks of an
attachment). -/
def hasStorage (img : Option (Int × Int)) : Bool :=
  match img with
  | some (w, h) => decide (0 < w ∧ 0 < h)
  | none => false

/-- OpenGL `glCheckFramebufferStatus(GL_FRAMEBUFFER) == GL_FRAMEBUFFER_COMPLETE` for a framebuffer
object that uses the two colour attachments and the depth attachment: each of them names an
object whose storage has non-zero width and height. -/
def glCheckFramebufferStatus (g : GLState) : Bool :=
  let f := g.framebufferBinding
  decide (g.colorAttachment0 f ≠ 0) && hasStorage (g.texImage (g.colorAttachment0 f)) &&
  decide (g.colorAttachment1 f ≠ 0) && hasStorage (g.texImage (g.colorAttachment1 f)) &&
  decide (g.depthAttachment f ≠ 0) && hasStorage (g.renderbufferStorage (g.depthAttachment f))

/-- OpenGL `glViewport(x, y, width, height)`. -/
def glViewport (x y width height : Int) (g : GLState) : GLState :=
  { g with viewport := (x, y, width, height) }

/-- OpenGL `glUseProgram(program)`. -/
def glUseProgram (program : Nat) (g : GLState) : GLState := { g with program := program }

/-- OpenGL `glDrawArrays(GL_TRIANGLES, first, count)`: the call is recorded with the state that
decides where and how large it draws. -/
def glDrawArrays (first count : Int) (g : GLState) : GLState :=
  { g with
    draws := g.draws ++
      [{ framebuffer := g.framebufferBinding, viewport := g.viewport, program := g.program,
         texture0 := g.textureBinding 0, texture1 := g.textureBinding 1,
         first := first, count := count }] }

end GLState

/-! ## `DemoPostProcess::Framebuffer` (`demo_postprocess.hpp`, lines 19-32) -/

/-- The `Framebuffer` struct with its member initialisers: `({} : Framebuffer)` is a fresh
target. -/
structure Framebuffer where
  width : Int := 0
  height : Int := 0
  id : Nat := 0
  baseTexture : Nat := 0
  finalTexture : Nat := 0
  depthRenderbuffer : Nat := 0
deriving DecidableEq

namespace Framebuffer

open GLState

/-- C++ `Framebuffer::Generate(int width, int height)` (`demo_postprocess.cpp`, lines 211-264).
The parameters shadow the members of the same name; the result is `none` when the `assert` on
the framebuffer status fails. -/
def Generate (fb : Framebuffer) (width height : Int) (g : GLState) : Option (Framebuffer × GLState) :=
  -- Create base buffer
  let r := glGenTextures g
  let fb := { fb with baseTexture := r.1 }
  let g := glBindTexture fb.baseTexture r.2
  let g := glTexImage2D width height g
  let g := glBindTexture 0 g
  -- Create final buffer
  let r := glGenTextures g
  let fb := { fb with finalTexture := r.1 }
  let g := glBindTexture fb.finalTexture r.2
  let g := glTexImage2D width height g
  let g := glBindTexture 0 g
  -- Create depth buffer
  let r := glGenRenderbuffers g
  let fb := { fb with depthRenderbuffer := r.1 }
  let g := glBindRenderbuffer fb.depthRenderbuffer r.2
  let g := glRenderbufferStorage width height g
  let g := glBindRenderbuffer 0 g
  let r := glGenFramebuffers g
  let fb := { fb with id := r.1 }
  let g := glBindFramebuffer fb.id r.2
  let g := glFramebufferTexture2D 0 fb.baseTexture g
  let g := glFramebufferTexture2D 1 fb.finalTexture g
  let g := glFramebufferRenderbuffer fb.depthRenderbuffer g
  if glCheckFramebufferStatus g then
    some (fb, glBindFramebuffer 0 g)
  else none

/-- C++ `Framebuffer::Resize(int width, int height)` (`demo_postprocess.cpp`, lines 266-276). -/
def Resize (fb : Framebuffer) (width height : Int) (g : GLState) : Framebuffer × GLState :=
  let fb := { fb with width := width }
  let fb := { fb with height := height }
  let g := glBindTexture fb.baseTexture g
  let g := glTexImage2D width height g
  let g := glBindTexture fb.finalTexture g
  let g := glTexImage2D width height g
  let g := glBindRenderbuffer fb.depthRenderbuffer g
  let g := glRenderbufferStorage width height g
  (fb, g)

/-- The four handles of the target name objects of the context `g`. -/
def generated (fb : Framebuffer) (g : GLState) : Prop :=
  g.isFramebuffer fb.id = true ∧ g.isTexture fb.baseTexture = true ∧
  g.isTexture fb.finalTexture = true ∧ g.isRenderbuffer fb.depthRenderbuffer = true

/-- The size invariant of the data model: the base image, the final image and the depth buffer
all have the stored width and height. -/
def sizesMatch (fb : Framebuffer) (g : GLState) : Prop :=
  g.texImage fb.baseTexture = some (fb.width, fb.height) ∧
  g.texImage fb.finalTexture = some (fb.width, fb.height) ∧
  g.renderbufferStorage fb.depthRenderbuffer = some (fb.width, fb.height)

/-- A sequence of `Resize` calls, in order. -/
def resizeAll (sizes : List (Int × Int)) (s : Framebuffer × GLState) : Framebuffer × GLState :=
  sizes.foldl (fun s wh => s.1.Resize wh.1 wh.2 s.2) s

end Framebuffer

/-- The target and context after `Generate(800, 600)` on a fresh `Framebuffer` in a fresh
context (the fallback of `getD` is not reached: the call succeeds). -/
def generatedTarget : Framebuffer × GLState :=
  (Framebuffer.Generate {} 800 600 GLState.init).getD ({}, GLState.init)

/-! ## `DemoPostProcess::UpdateAndRender` (`demo_postprocess.cpp`, lines 298-413) -/

/-- A `MeshSlice`: a range of the shared vertex buffer. -/
structure MeshSlice where
  start : Int := 0
  count : Int := 0
deriving DecidableEq

/-- The members of `DemoPostProcess` that the rendering code hands to OpenGL, and the
function-local `static bool finalImage`. -/
structure DemoPostProcess where
  vertexArrayObject : Nat := 0
  framebuffer : Framebuffer := {}
  mainProgram : Nat := 0
  diffuseTexture : Nat := 0
  specularTexture : Nat := 0
  fullscreenQuad : MeshSlice := {}
  postProcessProgram : Nat := 0
  obj : MeshSlice := {}
  finalImage : Bool := false
deriving DecidableEq

/-- C++ conversion `(int)x` of a `float`: truncation toward zero. -/
def castInt (x : ℚ) : Int := Int.tdiv x.num x.den

/-- C++ `DemoPostProcess::UpdateAndRender` for a surface of size `windowSize`: the resize check
and the two passes.  The camera update and the widgets change no tracked OpenGL state; the
uniform values of the post-process program are `postProcessUniforms` of the parameters. -/
def UpdateAndRender (windowSize : ℚ × ℚ) (d : DemoPostProcess) (g : GLState) : DemoPostProcess × GLState :=
  -- Resize framebuffer if needed
  let r :=
    if castInt windowSize.1 ≠ d.framebuffer.width ∨ castInt windowSize.2 ≠ d.framebuffer.height
    then d.framebuffer.Resize (castInt windowSize.1) (castInt windowSize.2) g
    else (d.framebuffer, g)
  let d := { d with framebuffer := r.1 }
  let g := r.2
  -- Setup main program uniforms
  let g := GLState.glUseProgram d.mainProgram g
  -- Setup post process program uniforms
  let g := GLState.glUseProgram d.postProcessProgram g
  -- Keep track of previous framebuffer to rebind it after offscreen rendering
  let previousFramebuffer := g.framebufferBinding
  -- Render to framebuffer
  let g := GLState.glViewport 0 0 d.framebuffer.width d.framebuffer.height g
  let g := GLState.glBindFramebuffer d.framebuffer.id g
  let g := GLState.glUseProgram d.mainProgram g
  let g := GLState.glActiveTexture 0 g
  let g := GLState.glBindTexture d.diffuseTexture g
  let g := GLState.glActiveTexture 1 g
  let g := GLState.glBindTexture d.specularTexture g
  let g := GLState.glDrawArrays d.obj.start d.obj.count g
  let g := GLState.glActiveTexture 0 g
  -- Render to screen
  let g := GLState.glViewport 0 0 (castInt windowSize.1) (castInt windowSize.2) g
  let g := GLState.glBindFramebuffer previousFramebuffer g
  let g := GLState.glUseProgram d.postProcessProgram g
  let g := GLState.glBindTexture
    (if d.finalImage then d.framebuffer.finalTexture else d.framebuffer.baseTexture) g
  let g := GLState.glDrawArrays d.fullscreenQuad.start d.fullscreenQuad.count g
  (d, g)

/-! ## Specification side definitions -/

section SpecSide

variable {α : Type}

/-- Luma `L = 0.2126*R + 0.7152*G + 0.0722*B` of a colour, as the specification writes it. -/
def lumaSpec [Field α] (C : Vec4 α) : α := 0.2126 * C.x + 0.7152 * C.y + 0.0722 * C.z

/-- The nine sample offsets as the specification lists them, for a step `o`. -/
def offsetsSpec [Field α] (o : α) : List (α × α) :=
  [(-o, o), (0, o), (o, o), (-o, 0), (0, 0), (o, 0), (-o, -o), (0, -o), (o, -o)]

/-- The specification's `sample[i]`: the source texture read at `vUV` plus the `i`-th offset,
with `o = 1/300`. -/
def sampleSpec [Field α] (colorTexture : Sampler2D α) (vUV : Vec2 α) (i : Nat) : Vec3 α :=
  let d := (offsetsSpec ((1 : α) / 300)).getD i (0, 0)
  (colorTexture ⟨vUV.x + d.1, vUV.y + d.2⟩).xyz

/-- The user's kernel matrix, row `r` (0-based): `kernelLine(r+1)`. -/
def kernelLineSpec (p : Params α) (r : Nat) : Vec3 α :=
  match r with
  | 0 => p.kernelLine1
  | 1 => p.kernelLine2
  | _ => p.kernelLine3

/-- The specification's convolution sum
`col = Σ r < 3, Σ c < 3, sample[3*r + c] * (kernelCoef * kernelLine(r+1)[c])`, per channel. -/
def kernelColSpec [Field α] (colorTexture : Sampler2D α) (p : Params α) (vUV : Vec2 α) : Vec3 α :=
  let w := fun r c => p.kernelCoef * (kernelLineSpec p r).idx c
  let s := sampleSpec colorTexture vUV
  { x := ∑ r in Finset.range 3, ∑ c in Finset.range 3, (s (3 * r + c)).x * w r c
    y := ∑ r in Finset.range 3, ∑ c in Finset.range 3, (s (3 * r + c)).y * w r c
    z := ∑ r in Finset.range 3, ∑ c in Finset.range 3, (s (3 * r + c)).z * w r c }

end SpecSide

/-! ## Theorems -/

/-- In a field the GLSL literal `1.0` is the unit. -/
theorem lit_one {α : Type} [Field α] : (1.0 : α) = 1 := by norm_num

/-- In a field the GLSL literal `0.0` is zero. -/
theorem lit_zero {α : Type} [Field α] : (0.0 : α) = 0 := by norm_num

/-- C1: with `inversed`, `grayScaled` and `kernelEffect` all false on the host, the post-process
fragment shader writes exactly the sampled colour, whatever the other parameters are and
whatever the arithmetic of the scalar type is. -/
theorem postProcess_noop {α : Type} [Add α] [Sub α] [Mul α] [Div α] [Neg α] [IntCast α]
    [OfScientific α] [OfNat α 0] (colorTexture : Sampler2D α) (vUV : Vec2 α) (p : Params α)
    (hi : p.inversed = false) (hg : p.grayScaled = false) (hk : p.kernelEffect = false) :
    postProcessMain colorTexture (postProcessUniforms p) vUV = colorTexture vUV := by
  simp [postProcessMain, invertStep, grayStep, kernelStep, postProcessUniforms, boolToInt,
    hi, hg, hk]

/-- C1 (instance): the no-op property on a rational texture, with non-trivial coefficients. -/
theorem postProcess_noop_witness :
    postProcessMain (fun _ => (⟨1/2, 1/3, 1/4, 1/5⟩ : Vec4 ℚ))
      (postProcessUniforms
        { lightIntensity := 0, inversed := false, inverseCoef := 7, grayScaled := false,
          grayScaleCoef := 3, kernelEffect := false, kernelCoef := 2, kernelIntensity := 5,
          kernelLine1 := ⟨1, 2, 3⟩, kernelLine2 := ⟨4, 5, 6⟩, kernelLine3 := ⟨7, 8, 9⟩ })
      ⟨0, 0⟩ = ⟨1/2, 1/3, 1/4, 1/5⟩ :=
  postProcess_noop _ _ _ rfl rfl rfl

/-- C3: with only the invert step enabled, the output is the source colour `C` multiplied
componentwise by `(1 - r, 1 - g, 1 - b, 1) * k`, that is
`(r*(1-r)*k, g*(1-g)*k, b*(1-b)*k, a*k)`; the output alpha is `a*k`. -/
theorem invert_only {α : Type} [Field α] (colorTexture : Sampler2D α) (vUV : Vec2 α)
    (p : Params α) (hi : p.inversed = true) (hg : p.grayScaled = false)
    (hk : p.kernelEffect = false) :
    (postProcessUniforms p).inversed = 1 ∧
    postProcessMain colorTexture (postProcessUniforms p) vUV
      = (colorTexture vUV).mul
          ((Vec4.mk (1 - (colorTexture vUV).x) (1 - (colorTexture vUV).y)
              (1 - (colorTexture vUV).z) 1).mulS p.inverseCoef) ∧
    postProcessMain colorTexture (postProcessUniforms p) vUV
      = ⟨(colorTexture vUV).x * (1 - (colorTexture vUV).x) * p.inverseCoef,
         (colorTexture vUV).y * (1 - (colorTexture vUV).y) * p.inverseCoef,
         (colorTexture vUV).z * (1 - (colorTexture vUV).z) * p.inverseCoef,
         (colorTexture vUV).w * p.inverseCoef⟩ := by
  refine ⟨by simp [postProcessUniforms, boolToInt, hi], ?_, ?_⟩
  · simp [postProcessMain, invertStep, grayStep, kernelStep, postProcessUniforms, boolToInt,
      hi, hg, hk, Vec4.mul, Vec4.mulS, Vec4.ofVec3, Vec4.xyz, Vec4.rsub]
    norm_num
  · simp [postProcessMain, invertStep, grayStep, kernelStep, postProcessUniforms, boolToInt,
      hi, hg, hk, Vec4.mul, Vec4.mulS, Vec4.ofVec3, Vec4.xyz, Vec4.rsub]
    norm_num
    refine ⟨?_, ?_, ?_⟩ <;> ring

/-- C3 (instance): invert only, on the colour `(1/2, 1/4, 1, 1/2)` with `inverseCoef = 3`. -/
theorem invert_only_witness :
    let p : Params ℚ := { Params.default with inversed := true, inverseCoef := 3 }
    (postProcessUniforms p).inversed = 1 ∧
    postProcessMain (fun _ => (⟨1/2, 1/4, 1, 1/2⟩ : Vec4 ℚ)) (postProcessUniforms p) ⟨0, 0⟩
      = (⟨1/2, 1/4, 1, 1/2⟩ : Vec4 ℚ).mul
          ((Vec4.mk (1 - 1/2) (1 - 1/4) (1 - 1) 1).mulS 3) ∧
    postProcessMain (fun _ => (⟨1/2, 1/4, 1, 1/2⟩ : Vec4 ℚ)) (postProcessUniforms p) ⟨0, 0⟩
      = ⟨1/2 * (1 - 1/2) * 3, 1/4 * (1 - 1/4) * 3, 1 * (1 - 1) * 3, 1/2 * 3⟩ :=
  invert_only (fun _ => (⟨1/2, 1/4, 1, 1/2⟩ : Vec4 ℚ)) ⟨0, 0⟩
    { Params.default with inversed := true, inverseCoef := 3 } rfl rfl rfl

/-- C4: when grayscale is enabled, the step multiplies the running `fragColor` (whatever the
invert step made of it) componentwise by `(L, L, L, 1) * g`, with `L` the luma of the original
sample `C`; and with only grayscale enabled, `g = 1` and `C = (1, 0, 0, A)` the luma term is
`(0.2126, 0.2126, 0.2126, 1)` and the output is `(0.2126, 0, 0, A)`. -/
theorem grayscale_uses_original_sample {α : Type} [Field α] (colorTexture : Sampler2D α)
    (vUV : Vec2 α) (p : Params α) (hg : p.grayScaled = true) :
    (∀ fragColor : Vec4 α,
      grayStep colorTexture (postProcessUniforms p) vUV fragColor
        = fragColor.mul
            ((Vec4.mk (lumaSpec (colorTexture vUV)) (lumaSpec (colorTexture vUV))
                (lumaSpec (colorTexture vUV)) 1).mulS p.grayScaleCoef)) ∧
    postProcessMain colorTexture (postProcessUniforms p) vUV
      = kernelStep colorTexture (postProcessUniforms p) vUV
          ((invertStep colorTexture (postProcessUniforms p) vUV (colorTexture vUV)).mul
            ((Vec4.mk (lumaSpec (colorTexture vUV)) (lumaSpec (colorTexture vUV))
                (lumaSpec (colorTexture vUV)) 1).mulS p.grayScaleCoef)) ∧
    (∀ A : α, colorTexture vUV = ⟨1, 0, 0, A⟩ → p.grayScaleCoef = 1 → p.inversed = false →
      p.kernelEffect = false →
      (Vec4.mk (lumaSpec (colorTexture vUV)) (lumaSpec (colorTexture vUV))
          (lumaSpec (colorTexture vUV)) 1).mulS p.grayScaleCoef
        = ⟨0.2126, 0.2126, 0.2126, 1⟩ ∧
      postProcessMain colorTexture (postProcessUniforms p) vUV = ⟨0.2126, 0, 0, A⟩) := by
  have hstep : ∀ fragColor : Vec4 α,
      grayStep colorTexture (postProcessUniforms p) vUV fragColor
        = fragColor.mul
            ((Vec4.mk (lumaSpec (colorTexture vUV)) (lumaSpec (colorTexture vUV))
                (lumaSpec (colorTexture vUV)) 1).mulS p.grayScaleCoef) := by
    intro fragColor
    simp [grayStep, postProcessUniforms, boolToInt, hg, lumaSpec, Vec4.mul, Vec4.mulS]
    norm_num
  refine ⟨hstep, ?_, ?_⟩
  · simp only [postProcessMain, hstep]
  · intro A hC hcoef hi hk
    constructor
    · simp [lumaSpec, hC, hcoef, Vec4.mulS]
    · simp only [postProcessMain, hstep]
      simp [invertStep, kernelStep, postProcessUniforms, boolToInt, hi, hk, lumaSpec, hC, hcoef,
        Vec4.mul, Vec4.mulS]

/-- C4 (instance): only grayscale, `g = 1`, source colour `(1, 0, 0, 1/2)`. -/
theorem grayscale_uses_original_sample_witness :
    postProcessMain (fun _ => (⟨1, 0, 0, 1/2⟩ : Vec4 ℚ))
        (postProcessUniforms { Params.default with grayScaled := true }) ⟨0, 0⟩
      = ⟨0.2126, 0, 0, 1/2⟩ :=
  ((grayscale_uses_original_sample (fun _ => (⟨1, 0, 0, 1/2⟩ : Vec4 ℚ)) ⟨0, 0⟩
      { Params.default with grayScaled := true } rfl).2.2 (1/2) rfl rfl rfl rfl).2

/-- C8: the scene fragment shader writes `finalColor = (s*l, 1)` and
`baseColor = (d + s*l, 1)`; on rgb, output 0 is output 1 plus `d`, and both alphas are 1. -/
theorem scene_outputs {α : Type} [Field α] (diffuseTexture specularTexture : Sampler2D α)
    (lightIntensity : α) (vUV : Vec2 α) :
    (sceneMain diffuseTexture specularTexture lightIntensity vUV).finalColor
      = ⟨(specularTexture vUV).x * lightIntensity, (specularTexture vUV).y * lightIntensity,
         (specularTexture vUV).z * lightIntensity, 1⟩ ∧
    (sceneMain diffuseTexture specularTexture lightIntensity vUV).baseColor
      = ⟨(diffuseTexture vUV).x + (specularTexture vUV).x * lightIntensity,
         (diffuseTexture vUV).y + (specularTexture vUV).y * lightIntensity,
         (diffuseTexture vUV).z + (specularTexture vUV).z * lightIntensity, 1⟩ ∧
    (sceneMain diffuseTexture specularTexture lightIntensity vUV).baseColor.xyz
      = (sceneMain diffuseTexture specularTexture lightIntensity vUV).finalColor.xyz.add
          (diffuseTexture vUV).xyz ∧
    (sceneMain diffuseTexture specularTexture lightIntensity vUV).baseColor.w = 1 ∧
    (sceneMain diffuseTexture specularTexture lightIntensity vUV).finalColor.w = 1 := by
  refine ⟨?_, ?_, ?_, ?_, ?_⟩ <;>
    simp [sceneMain, Vec4.ofVec3, Vec4.xyz, Vec3.add, Vec3.mulS, add_comm, lit_one]

/-- C7 (as stated, refuted): with only the invert step enabled and `inverseCoef = 1`, a black
source does not give the output colour `(1, 1, 1)`. -/
theorem black_source_not_white_after_invert :
    (postProcessMain (fun _ => (⟨0, 0, 0, 1⟩ : Vec4 ℚ))
        (postProcessUniforms { Params.default with inversed := true }) ⟨0, 0⟩).xyz
      ≠ ⟨1, 1, 1⟩ := by
  simp [postProcessMain, invertStep, grayStep, kernelStep, postProcessUniforms, boolToInt,
    Params.default, Vec4.mul, Vec4.mulS, Vec4.ofVec3, Vec4.xyz, Vec4.rsub]

/-- C7 (amended): with only the invert step enabled and `inverseCoef = 1`, on a black source
`(0, 0, 0, a)` the inverted term is `(1, 1, 1, 1)`, and since it is multiplied onto the running
`fragColor = (0, 0, 0, a)` the output is `(0, 0, 0, a)`. -/
theorem invert_black {α : Type} [Field α] (colorTexture : Sampler2D α) (vUV : Vec2 α)
    (p : Params α) (a : α) (hC : colorTexture vUV = ⟨0, 0, 0, a⟩) (hi : p.inversed = true)
    (hc : p.inverseCoef = 1) (hg : p.grayScaled = false) (hk : p.kernelEffect = false) :
    (Vec4.ofVec3 (Vec4.rsub (((postProcessUniforms p).inversed : Int) : α)
        (colorTexture vUV)).xyz 1.0).mulS (postProcessUniforms p).inverseCoef
      = ⟨1, 1, 1, 1⟩ ∧
    postProcessMain colorTexture (postProcessUniforms p) vUV = ⟨0, 0, 0, a⟩ := by
  constructor
  · simp [postProcessUniforms, boolToInt, hi, hc, hC, Vec4.mulS, Vec4.ofVec3, Vec4.xyz,
      Vec4.rsub, lit_one]
  · simp [postProcessMain, invertStep, grayStep, kernelStep, postProcessUniforms, boolToInt,
      hi, hc, hg, hk, hC, Vec4.mul, Vec4.mulS, Vec4.ofVec3, Vec4.xyz, Vec4.rsub, lit_one]

/-- C7 (instance): black source with alpha `1/2`. -/
theorem invert_black_witness :
    postProcessMain (fun _ => (⟨0, 0, 0, 1/2⟩ : Vec4 ℚ))
        (postProcessUniforms { Params.default with inversed := true }) ⟨0, 0⟩
      = ⟨0, 0, 0, 1/2⟩ :=
  (invert_black (fun _ => (⟨0, 0, 0, 1/2⟩ : Vec4 ℚ)) ⟨0, 0⟩
    { Params.default with inversed := true } (1/2) rfl rfl rfl rfl rfl).2

/-- C10: with the default parameters and the kernel effect switched on, the convolution sum is
the centre sample `C.rgb`, the output is `(r*r, g*g, b*b, a)`, and it differs from `C` exactly
when some rgb channel is neither 0 nor 1. -/
theorem default_kernel_not_passthrough {α : Type} [Field α] (colorTexture : Sampler2D α)
    (vUV : Vec2 α) :
    kernelCol (sampleTex colorTexture vUV)
        (postProcessUniforms { (Params.default : Params α) with kernelEffect := true }).kernel3
      = (colorTexture vUV).xyz ∧
    postProcessMain colorTexture
        (postProcessUniforms { (Params.default : Params α) with kernelEffect := true }) vUV
      = ⟨(colorTexture vUV).x * (colorTexture vUV).x, (colorTexture vUV).y * (colorTexture vUV).y,
         (colorTexture vUV).z * (colorTexture vUV).z, (colorTexture vUV).w⟩ ∧
    (postProcessMain colorTexture
        (postProcessUniforms { (Params.default : Params α) with kernelEffect := true }) vUV
      ≠ colorTexture vUV ↔
      (((colorTexture vUV).x ≠ 0 ∧ (colorTexture vUV).x ≠ 1) ∨
       ((colorTexture vUV).y ≠ 0 ∧ (colorTexture vUV).y ≠ 1) ∨
       ((colorTexture vUV).z ≠ 0 ∧ (colorTexture vUV).z ≠ 1))) := by
  have hcol : kernelCol (sampleTex colorTexture vUV)
        (postProcessUniforms { (Params.default : Params α) with kernelEffect := true }).kernel3
      = (colorTexture vUV).xyz := by
    simp [kernelCol, sampleTex, offsets, postProcessUniforms, glUniformMatrix3fv, hostKernel,
      Params.default, List.range_succ, Vec3.add, Vec3.mulS, Vec3.splat, Vec3.idx, Mat3.col,
      Vec4.xyz, Vec2.add, lit_zero]
  have hout : postProcessMain colorTexture
        (postProcessUniforms { (Params.default : Params α) with kernelEffect := true }) vUV
      = ⟨(colorTexture vUV).x * (colorTexture vUV).x, (colorTexture vUV).y * (colorTexture vUV).y,
         (colorTexture vUV).z * (colorTexture vUV).z, (colorTexture vUV).w⟩ := by
    have hflags : (postProcessUniforms
          { (Params.default : Params α) with kernelEffect := true }).kernelEffect = 1 ∧
        (postProcessUniforms
          { (Params.default : Params α) with kernelEffect := true }).inversed = 0 ∧
        (postProcessUniforms
          { (Params.default : Params α) with kernelEffect := true }).grayScaled = 0 ∧
        (postProcessUniforms
          { (Params.default : Params α) with kernelEffect := true }).kernelIntensity = 1 := by
      simp [postProcessUniforms, boolToInt, Params.default]
    simp only [postProcessMain, invertStep, grayStep, kernelStep, hflags.1, hflags.2.1,
      hflags.2.2.1, hflags.2.2.2, hcol]
    simp [Vec4.mul, Vec4.mulS, Vec4.ofVec3, Vec4.xyz, lit_one]
  refine ⟨hcol, hout, ?_⟩
  rw [hout]
  have key : ∀ t : α, t * t = t ↔ (t = 0 ∨ t = 1) := by
    intro t
    constructor
    · intro h
      have h2 : t * (t - 1) = 0 := by rw [mul_sub, h, mul_one, sub_self]
      rcases mul_eq_zero.mp h2 with h0 | h1
      · exact Or.inl h0
      · exact Or.inr (sub_eq_zero.mp h1)
    · rintro (h | h) <;> simp [h]
  cases hC : colorTexture vUV with
  | mk r g b a =>
    simp only [Vec4.mk.injEq, ne_eq, and_true, not_and_or, key]
    tauto

/-- The loops of the kernel branch, run on the uploaded host parameters, compute the
specification's row-major sum. -/
theorem kernelCol_upload {α : Type} [Field α] (colorTexture : Sampler2D α) (p : Params α)
    (vUV : Vec2 α) :
    kernelCol (sampleTex colorTexture vUV) (postProcessUniforms p).kernel3
      = kernelColSpec colorTexture p vUV := by
  simp [kernelCol, sampleTex, offsets, offset, postProcessUniforms, glUniformMatrix3fv,
    hostKernel, kernelColSpec, sampleSpec, offsetsSpec, kernelLineSpec, List.range_succ,
    Finset.sum_range_succ, Vec3.add, Vec3.mulS, Vec3.splat, Vec3.idx, Mat3.col, Vec4.xyz,
    Vec2.add, lit_zero, lit_one]
  norm_num
  refine ⟨?_, ?_, ?_⟩ <;> ring

/-- C2: when the kernel effect is enabled, the kernel step multiplies the running `fragColor`
componentwise by `(col, 1) * kernelIntensity`, where `col` is the row-major sum
`Σ r c, sample[3*r + c] * (kernelCoef * kernelLine(r+1)[c])` over the nine samples at
`vUV` plus the listed offsets with `o = 1/300`; the uploaded matrix entry `kernel3[j][i]` is
the user's entry `kernelLine(j+1)[i]` scaled by `kernelCoef`. -/
theorem kernel_step_row_major {α : Type} [Field α] (colorTexture : Sampler2D α) (p : Params α)
    (vUV : Vec2 α) (hk : p.kernelEffect = true) :
    (∀ fragColor : Vec4 α,
      kernelStep colorTexture (postProcessUniforms p) vUV fragColor
        = fragColor.mul
            ((Vec4.ofVec3 (kernelColSpec colorTexture p vUV) 1).mulS p.kernelIntensity)) ∧
    postProcessMain colorTexture (postProcessUniforms p) vUV
      = (grayStep colorTexture (postProcessUniforms p) vUV
          (invertStep colorTexture (postProcessUniforms p) vUV (colorTexture vUV))).mul
            ((Vec4.ofVec3 (kernelColSpec colorTexture p vUV) 1).mulS p.kernelIntensity) ∧
    (∀ j i : Nat, j < 3 → i < 3 →
      ((postProcessUniforms p).kernel3.col j).idx i
        = (kernelLineSpec p j).idx i * p.kernelCoef) := by
  have hstep : ∀ fragColor : Vec4 α,
      kernelStep colorTexture (postProcessUniforms p) vUV fragColor
        = fragColor.mul
            ((Vec4.ofVec3 (kernelColSpec colorTexture p vUV) 1).mulS p.kernelIntensity) := by
    intro fragColor
    have hflag : (postProcessUniforms p).kernelEffect = 1 := by
      simp [postProcessUniforms, boolToInt, hk]
    simp only [kernelStep, hflag, if_true, kernelCol_upload, lit_one]
    rfl
  refine ⟨hstep, ?_, ?_⟩
  · simp only [postProcessMain, hstep]
  · intro j i hj hi
    interval_cases j <;> interval_cases i <;>
      simp [postProcessUniforms, glUniformMatrix3fv, hostKernel, kernelLineSpec, Vec3.idx,
        Mat3.col]

/-- C2 (instance): a texture that varies with the coordinates, a non-symmetric matrix and the
running colour `(1/2, 1/3, 1/4, 1)`. -/
theorem kernel_step_row_major_witness :
    kernelStep (fun uv => (⟨uv.x, uv.y, uv.x * uv.y, 1⟩ : Vec4 ℚ))
        (postProcessUniforms
          { lightIntensity := 0, inversed := false, inverseCoef := 1, grayScaled := false,
            grayScaleCoef := 1, kernelEffect := true, kernelCoef := 2, kernelIntensity := 5,
            kernelLine1 := ⟨1, 2, 3⟩, kernelLine2 := ⟨4, 5, 6⟩, kernelLine3 := ⟨7, 8, 9⟩ })
        ⟨1/2, 1/3⟩ ⟨1/2, 1/3, 1/4, 1⟩
      = (⟨1/2, 1/3, 1/4, 1⟩ : Vec4 ℚ).mul
          ((Vec4.ofVec3
              (kernelColSpec (fun uv => (⟨uv.x, uv.y, uv.x * uv.y, 1⟩ : Vec4 ℚ))
                { lightIntensity := 0, inversed := false, inverseCoef := 1,
                  grayScaled := false, grayScaleCoef := 1, kernelEffect := true,
                  kernelCoef := 2, kernelIntensity := 5, kernelLine1 := ⟨1, 2, 3⟩,
                  kernelLine2 := ⟨4, 5, 6⟩, kernelLine3 := ⟨7, 8, 9⟩ }
                ⟨1/2, 1/3⟩) 1).mulS 5) :=
  (kernel_step_row_major (fun uv => (⟨uv.x, uv.y, uv.x * uv.y, 1⟩ : Vec4 ℚ))
    { lightIntensity := 0, inversed := false, inverseCoef := 1, grayScaled := false,
      grayScaleCoef := 1, kernelEffect := true, kernelCoef := 2, kernelIntensity := 5,
      kernelLine1 := ⟨1, 2, 3⟩, kernelLine2 := ⟨4, 5, 6⟩, kernelLine3 := ⟨7, 8, 9⟩ }
    ⟨1/2, 1/3⟩ rfl).1 ⟨1/2, 1/3, 1/4, 1⟩

/-! ### Offscreen target -/

/-- What `Generate` does to an arbitrary target: the three attachments get the requested size and
the four handles name objects of the context, while the stored `width` and `height` keep their
old values. -/
theorem Framebuffer.Generate_spec (fb fb1 : Framebuffer) (width height : Int) (g g1 : GLState)
    (h : fb.Generate width height g = some (fb1, g1)) :
    fb1.width = fb.width ∧ fb1.height = fb.height ∧
    g1.texImage fb1.baseTexture = some (width, height) ∧
    g1.texImage fb1.finalTexture = some (width, height) ∧
    g1.renderbufferStorage fb1.depthRenderbuffer = some (width, height) ∧
    fb1.generated g1 := by
  unfold Framebuffer.Generate at h
  simp only [GLState.glGenTextures, GLState.glGenRenderbuffers, GLState.glGenFramebuffers,
    GLState.glBindTexture, GLState.glTexImage2D, GLState.glBindRenderbuffer,
    GLState.glRenderbufferStorage, GLState.glBindFramebuffer, GLState.glFramebufferTexture2D,
    GLState.glFramebufferRenderbuffer, GLState.isTexture, GLState.isRenderbuffer,
    GLState.isFramebuffer] at h
  simp at h
  obtain ⟨-, hfb, hg⟩ := h
  subst hfb hg
  simp [Framebuffer.generated, GLState.isTexture, GLState.isRenderbuffer,
    GLState.isFramebuffer]

/-- C5 (the code at the failing input): `Generate(800, 600)` on a fresh `Framebuffer` in a fresh
context succeeds, gives the three attachments the size 800 x 600, and leaves the stored
width and height at 0, so the size invariant does not hold after it. -/
theorem generate_leaves_stored_size_unset :
    ∃ fb g, Framebuffer.Generate {} 800 600 GLState.init = some (fb, g) ∧
      g.texImage fb.baseTexture = some (800, 600) ∧
      g.texImage fb.finalTexture = some (800, 600) ∧
      g.renderbufferStorage fb.depthRenderbuffer = some (800, 600) ∧
      fb.width = 0 ∧ fb.height = 0 ∧ ¬ fb.sizesMatch g := by
  refine ⟨_, _, rfl, by decide, by decide, by decide, rfl, rfl, ?_⟩
  intro h
  have h1 := h.1
  revert h1
  decide

/-- One `Resize` on a generated target: stored size and the three storage sizes become
`(width, height)`, the handles, the set of framebuffer objects and its attachments stay. -/
theorem Framebuffer.Resize_spec (fb : Framebuffer) (g : GLState) (hgen : fb.generated g)
    (width height : Int) :
    (fb.Resize width height g).1 = { fb with width := width, height := height } ∧
    (fb.Resize width height g).2.texImage fb.baseTexture = some (width, height) ∧
    (fb.Resize width height g).2.texImage fb.finalTexture = some (width, height) ∧
    (fb.Resize width height g).2.renderbufferStorage fb.depthRenderbuffer
      = some (width, height) ∧
    (fb.Resize width height g).2.textureNames = g.textureNames ∧
    (fb.Resize width height g).2.renderbufferNames = g.renderbufferNames ∧
    (fb.Resize width height g).2.framebufferNames = g.framebufferNames ∧
    (fb.Resize width height g).2.colorAttachment0 = g.colorAttachment0 ∧
    (fb.Resize width height g).2.colorAttachment1 = g.colorAttachment1 ∧
    (fb.Resize width height g).2.depthAttachment = g.depthAttachment := by
  obtain ⟨-, hb, hf, hd⟩ := hgen
  have hd0 : fb.depthRenderbuffer ≠ 0 := by
    intro h0
    simp [GLState.isRenderbuffer, h0] at hd
  simp only [GLState.isTexture, GLState.isRenderbuffer] at hb hf hd
  simp [Framebuffer.Resize, GLState.glBindTexture, GLState.glTexImage2D,
    GLState.glBindRenderbuffer, GLState.glRenderbufferStorage, GLState.isTexture,
    GLState.isRenderbuffer, hb, hf, hd, hd0]

/-- `Resize` keeps a generated target generated. -/
theorem Framebuffer.Resize_generated (fb : Framebuffer) (g : GLState) (hgen : fb.generated g)
    (width height : Int) :
    (fb.Resize width height g).1.generated (fb.Resize width height g).2 := by
  have hs := Framebuffer.Resize_spec fb g hgen width height
  obtain ⟨h1, -, -, -, ht, hr, hfn, -, -, -⟩ := hs
  obtain ⟨hi, hb, hf, hd⟩ := hgen
  rw [h1]
  simp only [Framebuffer.generated, GLState.isTexture, GLState.isRenderbuffer,
    GLState.isFramebuffer, ht, hr, hfn] at *
  exact ⟨hi, hb, hf, hd⟩

/-- A sequence of `Resize` calls keeps the handles and keeps the target generated. -/
theorem Framebuffer.resizeAll_handles (sizes : List (Int × Int)) (fb : Framebuffer)
    (g : GLState) (hgen : fb.generated g) :
    (Framebuffer.resizeAll sizes (fb, g)).1.generated (Framebuffer.resizeAll sizes (fb, g)).2 ∧
    (Framebuffer.resizeAll sizes (fb, g)).1.id = fb.id ∧
    (Framebuffer.resizeAll sizes (fb, g)).1.baseTexture = fb.baseTexture ∧
    (Framebuffer.resizeAll sizes (fb, g)).1.finalTexture = fb.finalTexture ∧
    (Framebuffer.resizeAll sizes (fb, g)).1.depthRenderbuffer = fb.depthRenderbuffer := by
  induction sizes generalizing fb g with
  | nil => exact ⟨hgen, rfl, rfl, rfl, rfl⟩
  | cons wh rest ih =>
    have hstep := Framebuffer.Resize_generated fb g hgen wh.1 wh.2
    have hfb := (Framebuffer.Resize_spec fb g hgen wh.1 wh.2).1
    have e : Framebuffer.resizeAll (wh :: rest) (fb, g)
        = Framebuffer.resizeAll rest ((fb.Resize wh.1 wh.2 g).1, (fb.Resize wh.1 wh.2 g).2) := rfl
    obtain ⟨t1, t2, t3, t4, t5⟩ := ih _ _ hstep
    rw [e]
    exact ⟨t1, t2.trans (by rw [hfb]), t3.trans (by rw [hfb]), t4.trans (by rw [hfb]),
      t5.trans (by rw [hfb])⟩

/-- C6: on a generated target, `Resize(w, h)` sets the stored width and height and the storage
size of the base image, the final image and the depth buffer to `(w, h)` and keeps the four
handles and the framebuffer object with its attachments; and after any sequence of `Resize`
calls that ends with `Resize(w0, h0)` the stored size and the three storage sizes are
`(w0, h0)` and the handles are still the original ones. -/
theorem resize_postcondition_round_trip (fb : Framebuffer) (g : GLState)
    (hgen : fb.generated g) :
    (∀ w h : Int,
      (fb.Resize w h g).1.width = w ∧ (fb.Resize w h g).1.height = h ∧
      (fb.Resize w h g).2.texImage (fb.Resize w h g).1.baseTexture = some (w, h) ∧
      (fb.Resize w h g).2.texImage (fb.Resize w h g).1.finalTexture = some (w, h) ∧
      (fb.Resize w h g).2.renderbufferStorage (fb.Resize w h g).1.depthRenderbuffer
        = some (w, h) ∧
      (fb.Resize w h g).1.id = fb.id ∧
      (fb.Resize w h g).1.baseTexture = fb.baseTexture ∧
      (fb.Resize w h g).1.finalTexture = fb.finalTexture ∧
      (fb.Resize w h g).1.depthRenderbuffer = fb.depthRenderbuffer ∧
      (fb.Resize w h g).2.framebufferNames = g.framebufferNames ∧
      (fb.Resize w h g).2.colorAttachment0 = g.colorAttachment0 ∧
      (fb.Resize w h g).2.colorAttachment1 = g.colorAttachment1 ∧
      (fb.Resize w h g).2.depthAttachment = g.depthAttachment) ∧
    (∀ (sizes : List (Int × Int)) (w0 h0 : Int),
      (Framebuffer.resizeAll (sizes ++ [(w0, h0)]) (fb, g)).1.width = w0 ∧
      (Framebuffer.resizeAll (sizes ++ [(w0, h0)]) (fb, g)).1.height = h0 ∧
      (Framebuffer.resizeAll (sizes ++ [(w0, h0)]) (fb, g)).1.sizesMatch
        (Framebuffer.resizeAll (sizes ++ [(w0, h0)]) (fb, g)).2 ∧
      (Framebuffer.resizeAll (sizes ++ [(w0, h0)]) (fb, g)).1.id = fb.id ∧
      (Framebuffer.resizeAll (sizes ++ [(w0, h0)]) (fb, g)).1.baseTexture = fb.baseTexture ∧
      (Framebuffer.resizeAll (sizes ++ [(w0, h0)]) (fb, g)).1.finalTexture = fb.finalTexture ∧
      (Framebuffer.resizeAll (sizes ++ [(w0, h0)]) (fb, g)).1.depthRenderbuffer
        = fb.depthRenderbuffer) := by
  have one : ∀ (fb : Framebuffer) (g : GLState), fb.generated g → ∀ w h : Int,
      (fb.Resize w h g).1.width = w ∧ (fb.Resize w h g).1.height = h ∧
      (fb.Resize w h g).2.texImage (fb.Resize w h g).1.baseTexture = some (w, h) ∧
      (fb.Resize w h g).2.texImage (fb.Resize w h g).1.finalTexture = some (w, h) ∧
      (fb.Resize w h g).2.renderbufferStorage (fb.Resize w h g).1.depthRenderbuffer
        = some (w, h) ∧
      (fb.Resize w h g).1.id = fb.id ∧
      (fb.Resize w h g).1.baseTexture = fb.baseTexture ∧
      (fb.Resize w h g).1.finalTexture = fb.finalTexture ∧
      (fb.Resize w h g).1.depthRenderbuffer = fb.depthRenderbuffer ∧
      (fb.Resize w h g).2.framebufferNames = g.framebufferNames ∧
      (fb.Resize w h g).2.colorAttachment0 = g.colorAttachment0 ∧
      (fb.Resize w h g).2.colorAttachment1 = g.colorAttachment1 ∧
      (fb.Resize w h g).2.depthAttachment = g.depthAttachment := by
    intro fb g hgen w h
    obtain ⟨h1, hb, hf, hd, -, -, hfn, h0, h1a, hda⟩ := Framebuffer.Resize_spec fb g hgen w h
    rw [h1]
    exact ⟨rfl, rfl, hb, hf, hd, rfl, rfl, rfl, rfl, hfn, h0, h1a, hda⟩
  refine ⟨one fb g hgen, ?_⟩
  intro sizes w0 h0
  obtain ⟨hgen2, hid, hb, hf, hd⟩ := Framebuffer.resizeAll_handles sizes fb g hgen
  have hlast := one _ _ hgen2 w0 h0
  have hsplit : Framebuffer.resizeAll (sizes ++ [(w0, h0)]) (fb, g)
      = (Framebuffer.resizeAll sizes (fb, g)).1.Resize w0 h0
          (Framebuffer.resizeAll sizes (fb, g)).2 := by
    simp [Framebuffer.resizeAll, List.foldl_append]
  rw [hsplit]
  obtain ⟨a1, a2, a3, a4, a5, a6, a7, a8, a9, -⟩ := hlast
  refine ⟨a1, a2, ?_, a6.trans hid, a7.trans hb, a8.trans hf, a9.trans hd⟩
  unfold Framebuffer.sizesMatch
  rw [a1, a2]
  exact ⟨a3, a4, a5⟩

/-- C6 (instance): the target generated at 800 x 600 in a fresh context, resized to 1024 x 768,
then 1 x 1, then back to 800 x 600. -/
theorem resize_postcondition_round_trip_witness :
    (Framebuffer.resizeAll ([(1024, 768), (1, 1)] ++ [(800, 600)])
        (generatedTarget.1, generatedTarget.2)).1.width = 800 ∧
    (Framebuffer.resizeAll ([(1024, 768), (1, 1)] ++ [(800, 600)])
        (generatedTarget.1, generatedTarget.2)).1.height = 600 ∧
    (Framebuffer.resizeAll ([(1024, 768), (1, 1)] ++ [(800, 600)])
        (generatedTarget.1, generatedTarget.2)).1.sizesMatch
      (Framebuffer.resizeAll ([(1024, 768), (1, 1)] ++ [(800, 600)])
        (generatedTarget.1, generatedTarget.2)).2 :=
  have h := (resize_postcondition_round_trip generatedTarget.1 generatedTarget.2
    ⟨by decide, by decide, by decide, by decide⟩).2 [(1024, 768), (1, 1)] 800 600
  ⟨h.1, h.2.1, h.2.2.1⟩

/-! ### Frame step -/

/-- Binding a texture changes neither the viewport, nor the framebuffer binding, nor the
recorded draws, nor the count of storage calls. -/
theorem GLState.glBindTexture_frame (n : Nat) (g : GLState) :
    (GLState.glBindTexture n g).viewport = g.viewport ∧
    (GLState.glBindTexture n g).framebufferBinding = g.framebufferBinding ∧
    (GLState.glBindTexture n g).draws = g.draws ∧
    (GLState.glBindTexture n g).storageCalls = g.storageCalls := by
  unfold GLState.glBindTexture
  split <;> exact ⟨rfl, rfl, rfl, rfl⟩

/-- Binding a framebuffer changes neither the viewport, nor the recorded draws, nor the count of
storage calls. -/
theorem GLState.glBindFramebuffer_frame (n : Nat) (g : GLState) :
    (GLState.glBindFramebuffer n g).viewport = g.viewport ∧
    (GLState.glBindFramebuffer n g).draws = g.draws ∧
    (GLState.glBindFramebuffer n g).storageCalls = g.storageCalls := by
  unfold GLState.glBindFramebuffer
  split <;> exact ⟨rfl, rfl, rfl⟩

/-- `Resize` always sets the stored size, issues three storage calls and records no draw. -/
theorem Framebuffer.Resize_frame (fb : Framebuffer) (width height : Int) (g : GLState) :
    (fb.Resize width height g).1 = { fb with width := width, height := height } ∧
    (fb.Resize width height g).2.storageCalls = g.storageCalls + 3 ∧
    (fb.Resize width height g).2.draws = g.draws := by
  refine ⟨rfl, ?_, ?_⟩
  · simp only [Framebuffer.Resize, GLState.glRenderbufferStorage, GLState.glBindRenderbuffer,
      GLState.glTexImage2D]
    split <;> split <;> simp [GLState.glBindTexture_frame]
  · simp only [Framebuffer.Resize, GLState.glRenderbufferStorage, GLState.glBindRenderbuffer,
      GLState.glTexImage2D]
    split <;> split <;> simp [GLState.glBindTexture_frame]

/-- The effect of a frame step on the stored target, on the count of storage calls and on the
viewports of the recorded draws, in terms of the outcome of the resize check. -/
theorem UpdateAndRender_frame (windowSize : ℚ × ℚ) (d : DemoPostProcess) (g : GLState) :
    (UpdateAndRender windowSize d g).1.framebuffer
      = (if castInt windowSize.1 ≠ d.framebuffer.width ∨
            castInt windowSize.2 ≠ d.framebuffer.height
          then d.framebuffer.Resize (castInt windowSize.1) (castInt windowSize.2) g
          else (d.framebuffer, g)).1 ∧
    (UpdateAndRender windowSize d g).2.storageCalls
      = (if castInt windowSize.1 ≠ d.framebuffer.width ∨
            castInt windowSize.2 ≠ d.framebuffer.height
          then d.framebuffer.Resize (castInt windowSize.1) (castInt windowSize.2) g
          else (d.framebuffer, g)).2.storageCalls ∧
    (UpdateAndRender windowSize d g).2.draws.map Draw.viewport
      = (if castInt windowSize.1 ≠ d.framebuffer.width ∨
            castInt windowSize.2 ≠ d.framebuffer.height
          then d.framebuffer.Resize (castInt windowSize.1) (castInt windowSize.2) g
          else (d.framebuffer, g)).2.draws.map Draw.viewport
        ++ [(0, 0, (UpdateAndRender windowSize d g).1.framebuffer.width,
              (UpdateAndRender windowSize d g).1.framebuffer.height),
            (0, 0, castInt windowSize.1, castInt windowSize.2)] := by
  refine ⟨rfl, ?_, ?_⟩
  · simp [UpdateAndRender, GLState.glDrawArrays, GLState.glUseProgram, GLState.glViewport,
      GLState.glActiveTexture, GLState.glBindTexture_frame, GLState.glBindFramebuffer_frame]
  · simp [UpdateAndRender, GLState.glDrawArrays, GLState.glUseProgram, GLState.glViewport,
      GLState.glActiveTexture, GLState.glBindTexture_frame, GLState.glBindFramebuffer_frame]

/-- C9: a frame step calls `Resize` (three storage calls, the effect of `Resize((int)x, (int)y)`
on the target) exactly when `(int)x` differs from the stored width or `(int)y` from the stored
height, and issues no storage call otherwise; in both cases the stored size is
`((int)x, (int)y)` when the two draws are issued, so the viewport of the scene pass and the
viewport of the post-process pass have the same size. -/
theorem frame_resize_check (windowSize : ℚ × ℚ) (d : DemoPostProcess) (g : GLState) :
    ((UpdateAndRender windowSize d g).2.storageCalls ≠ g.storageCalls ↔
      (castInt windowSize.1 ≠ d.framebuffer.width ∨
        castInt windowSize.2 ≠ d.framebuffer.height)) ∧
    (UpdateAndRender windowSize d g).2.storageCalls
      = g.storageCalls +
          (if castInt windowSize.1 ≠ d.framebuffer.width ∨
              castInt windowSize.2 ≠ d.framebuffer.height then 3 else 0) ∧
    (UpdateAndRender windowSize d g).1.framebuffer
      = { d.framebuffer with width := castInt windowSize.1, height := castInt windowSize.2 } ∧
    (UpdateAndRender windowSize d g).2.draws.map Draw.viewport
      = g.draws.map Draw.viewport
        ++ [(0, 0, castInt windowSize.1, castInt windowSize.2),
            (0, 0, castInt windowSize.1, castInt windowSize.2)] := by
  obtain ⟨hfb, hcalls, hdraws⟩ := UpdateAndRender_frame windowSize d g
  by_cases hc : castInt windowSize.1 ≠ d.framebuffer.width ∨
      castInt windowSize.2 ≠ d.framebuffer.height
  · obtain ⟨r1, r2, r3⟩ := Framebuffer.Resize_frame d.framebuffer (castInt windowSize.1)
      (castInt windowSize.2) g
    rw [if_pos hc] at hfb hcalls hdraws
    rw [r1] at hfb
    rw [r2] at hcalls
    rw [r3, hfb] at hdraws
    refine ⟨?_, ?_, hfb, hdraws⟩
    · rw [hcalls]
      constructor
      · intro _
        exact hc
      · intro _
        omega
    · rw [hcalls, if_pos hc]
  · rw [if_neg hc] at hfb hcalls hdraws
    have hw : castInt windowSize.1 = d.framebuffer.width := by
      by_contra h
      exact hc (Or.inl h)
    have hh : castInt windowSize.2 = d.framebuffer.height := by
      by_contra h
      exact hc (Or.inr h)
    have hfb2 : (UpdateAndRender windowSize d g).1.framebuffer
        = { d.framebuffer with width := castInt windowSize.1,
                               height := castInt windowSize.2 } := by
      rw [hfb, hw, hh]
    rw [hfb2] at hdraws
    refine ⟨?_, ?_, hfb2, hdraws⟩
    · rw [hcalls]
      constructor
      · intro h
        exact absurd rfl h
      · intro h
        exact absurd h hc
    · rw [hcalls, if_neg hc]
      rfl

end IBL
